import Mathlib

/-!
Verification of the NSAF network-security-assessment framework
(`nsaf/core/scanner.py` and the rule-based vulnerability assessment engine)
against its natural-language specification.

The Python code is shallowly embedded: strings are Lean `String`s manipulated
through executable `List Char` primitives that mirror the Python `str` methods
used by the code; network I/O (socket connects, banner reads, the external
nmap tool, subprocess pings) is abstracted into explicit environment records,
and thread-pool completion order is an explicit reordering parameter, so every
theorem quantifies over all I/O behaviours and all completion orders; a Python
exception escaping a function is an `Except.error` / `Option.none` value.
-/

namespace NSAF

/-! ## String primitives mirroring the Python `str` methods used by the code -/

/-- Python `s.split(sep)` for a single-character separator: splits on every
occurrence and keeps empty fragments (`"80-".split('-') == ["80", ""]`,
`"".split(',') == [""]`). -/
def splitChar (sep : Char) : List Char → List (List Char)
  | [] => [[]]
  | c :: rest =>
    let r := splitChar sep rest
    if c = sep then [] :: r
    else match r with
      | [] => [[c]]
      | g :: gs => (c :: g) :: gs

/-- String-level wrapper for `splitChar`. -/
def strSplit (sep : Char) (s : String) : List String :=
  (splitChar sep s.toList).map String.mk

/-- Python `s.lower()` (ASCII case folding, which covers every banner and
service label occurring in the code). -/
def lowerStr (s : String) : String := String.mk (s.toList.map Char.toLower)

/-- Python `s.upper()` (ASCII). -/
def upperStr (s : String) : String := String.mk (s.toList.map Char.toUpper)

/-- Prefix test on character lists (Python `s.startswith(pat)`). -/
def prefOf : List Char → List Char → Bool
  | [], _ => true
  | _ :: _, [] => false
  | a :: as, b :: bs => a = b && prefOf as bs

/-- Python `s.startswith(pat)`. -/
def startsWithStr (pat s : String) : Bool := prefOf pat.toList s.toList

/-- Substring test on character lists. -/
def hasSubstrAux (pat : List Char) : List Char → Bool
  | [] => pat.isEmpty
  | c :: rest => prefOf pat (c :: rest) || hasSubstrAux pat rest

/-- Python `pat in s` on strings (contiguous substring test). -/
def hasSubstr (pat s : String) : Bool := hasSubstrAux pat.toList s.toList

/-- The ASCII whitespace characters stripped by Python `s.strip()` / `int(s)`. -/
def isSpaceChar (c : Char) : Bool :=
  c = ' ' || c = '\t' || c = '\n' || c = '\r' || c = '\x0b' || c = '\x0c'

/-- Drop leading whitespace. -/
def dropSpaces (cs : List Char) : List Char := cs.dropWhile isSpaceChar

/-- Python `s.strip()` (ASCII whitespace, which covers every string the code
strips). -/
def pyStripStr (s : String) : String :=
  String.mk ((dropSpaces ((dropSpaces s.toList.reverse)).reverse))

/-- Value of a digit run, `none` if empty or a non-digit occurs. -/
def decDigits (cs : List Char) : Option Nat :=
  if cs.isEmpty then none
  else if cs.all Char.isDigit then
    some (cs.foldl (fun acc c => acc * 10 + (c.toNat - 48)) 0)
  else none

/-- Python `int(s)`: surrounding whitespace is ignored, an optional sign is
followed by one or more decimal digits; anything else raises `ValueError`,
modelled as `none`. (Digit-group underscores, accepted by Python, never occur
in the inputs considered here and are modelled as errors.) -/
def pyInt (s : String) : Option Int :=
  match (pyStripStr s).toList with
  | '-' :: rest => (decDigits rest).map (fun n => -(n : Int))
  | '+' :: rest => (decDigits rest).map (fun n => (n : Int))
  | cs => (decDigits cs).map (fun n => (n : Int))

/-- Python `range(start, stop + 1)` as a list: empty whenever `stop < start`. -/
def pyRangeIncl (start stop : Int) : List Int :=
  if start ≤ stop then (List.range (stop + 1 - start).toNat).map (fun i => start + i)
  else []

/-- First-match lookup in an association-list table (Python `dict.get`). -/
def tableLookup {κ β : Type} [DecidableEq κ] : List (κ × β) → κ → Option β
  | [], _ => none
  | (k, v) :: rest, key => if key = k then some v else tableLookup rest key

/-! ## Data model (`nsaf/core/scanner.py`, dataclasses `ScanResult` / `HostInfo`)

The wall-clock `timestamp` field set by `ScanResult.__post_init__` is not
modelled: no claim refers to it and no scanner logic reads it. -/

/-- Dataclass `ScanResult` (scanner.py lines 28-41). -/
structure ScanResult where
  host : String
  port : Int
  state : String
  service : String := ""
  version : String := ""
  banner : String := ""
deriving DecidableEq

/-! ## NetworkScanner._parse_ports (scanner.py lines 271-282)

`for part in ports.split(','):` — a part containing `'-'` is unpacked as
`start, end = map(int, part.split('-'))` and contributes
`range(start, end + 1)`; any other part contributes `int(part)`.  A
`ValueError` from `int()` or from unpacking a split of length ≠ 2 escapes the
function; it is modelled as `none`. -/

/-- One part of the comma-separated port spec. -/
def parsePortPart (part : String) : Option (List Int) :=
  if part.toList.any (· = '-') then
    match strSplit '-' part with
    | [a, b] => do
      let s ← pyInt a
      let e ← pyInt b
      pure (pyRangeIncl s e)
    | _ => none
  else do
    let n ← pyInt part
    pure [n]

/-- `NetworkScanner._parse_ports`. -/
def parse_ports (ports : String) : Option (List Int) :=
  (strSplit ',' ports).foldlM (fun acc part => (parsePortPart part).map (acc ++ ·)) []

/-! ## NetworkScanner._identify_service (scanner.py lines 284-307) -/

/-- The static `common_services` table (scanner.py lines 286-291). -/
def common_services : List (Int × String) :=
  [(21, "ftp"), (22, "ssh"), (23, "telnet"), (25, "smtp"),
   (53, "dns"), (80, "http"), (110, "pop3"), (143, "imap"),
   (443, "https"), (993, "imaps"), (995, "pop3s"),
   (3389, "rdp"), (5432, "postgresql"), (3306, "mysql")]

/-- `NetworkScanner._identify_service`: port-table default, overridden by
case-insensitive banner-substring matching when the banner is non-empty. -/
def identify_service (port : Int) (banner : String) : String :=
  let service := (tableLookup common_services port).getD "unknown"
  if banner ≠ "" then
    let bl := lowerStr banner
    if hasSubstr "http" bl then "http"
    else if hasSubstr "ssh" bl then "ssh"
    else if hasSubstr "ftp" bl then "ftp"
    else if hasSubstr "smtp" bl then "smtp"
    else service
  else service

/-! ## NetworkScanner._tcp_connect_scan (scanner.py lines 225-269) -/

/-- Outcome of one `connect_ex` probe of `(target, port)`.  `opened recvd`
models `connect_ex == 0`, with `recvd` the result of the best-effort banner
grab (`none` when `send`/`recv` raised, leaving `banner = ""`);
`refusedOrTimeout` models a nonzero `connect_ex` result; `errored` models an
exception from socket creation or `connect_ex` (e.g. name-resolution failure).
Both of the latter make `scan_port` return `None`. -/
inductive ProbeOutcome where
  | opened (recvd : Option String)
  | refusedOrTimeout
  | errored
deriving DecidableEq

/-- The network as seen by connect probes: outcome per `(target, port)`. -/
def ProbeEnv : Type := String → Int → ProbeOutcome

/-- Body of the inner `scan_port` closure (scanner.py lines 230-260): on an
open port the banner (empty when the grab failed) feeds `_identify_service`,
and the stored banner is truncated to 200 characters; otherwise `None`. -/
def scan_port (env : ProbeEnv) (target : String) (port : Int) : Option ScanResult :=
  match env target port with
  | .opened recvd =>
    let banner := recvd.getD ""
    some { host := target, port := port, state := "open",
           service := identify_service port banner,
           banner := String.mk (banner.toList.take 200) }
  | .refusedOrTimeout => none
  | .errored => none

/-- Ordering of scan results by the `port` key used by
`sorted(results, key=lambda x: x.port)`. -/
def portLE (a b : ScanResult) : Prop := a.port ≤ b.port

instance : DecidableRel portLE := fun a b => inferInstanceAs (Decidable (a.port ≤ b.port))

instance : IsTotal ScanResult portLE := ⟨fun a b => Int.le_total a.port b.port⟩

instance : IsTrans ScanResult portLE := ⟨fun _ _ _ hab hbc => le_trans hab hbc⟩

/-- Python's `sorted` is a stable sort by the given key; modelled by the
(stable) insertion sort on the `port` key. -/
def sortByPort (l : List ScanResult) : List ScanResult := List.insertionSort portLE l

/-- A Python exception escaping a scan call (`ValueError` raised by
`_parse_ports` is the only one the scanner itself can raise). -/
inductive ScanError where
  | valueError
deriving DecidableEq

/-- `NetworkScanner._tcp_connect_scan`.  `completionOrder` models the order in
which `as_completed` yields the futures of the probe pool: the executor
submits one probe per parsed port and results are appended in completion
order, i.e. in some rearrangement of the parsed port list.  Every theorem
below holds for an arbitrary `completionOrder`, hence in particular for every
permutation.  A parse failure escapes before any probe is submitted. -/
def tcp_connect_scan (env : ProbeEnv) (target : String) (ports : String)
    (completionOrder : List Int → List Int) : Except ScanError (List ScanResult) :=
  match parse_ports ports with
  | none => .error .valueError
  | some port_list =>
    .ok (sortByPort ((completionOrder port_list).filterMap (scan_port env target)))

/-! ## NetworkScanner._nmap_scan (scanner.py lines 192-223) -/

/-- One row of the external nmap tool's per-port table
(`self.nm[target]['tcp']`), in the order the tool reports it. -/
structure NmapPortInfo where
  port : Int
  state : String
  name : String := ""
  version : String := ""
deriving DecidableEq

/-- `NetworkScanner._nmap_scan`: keeps the rows with `state == 'open'`, in the
external tool's reporting order — the list is NOT re-sorted.  (When the target
is absent from `all_hosts()`, or the tool raises, the table is empty.) -/
def nmap_scan (resp : List NmapPortInfo) (target : String) : List ScanResult :=
  (resp.filter (fun e => e.state = "open")).map (fun e =>
    { host := target, port := e.port, state := e.state,
      service := e.name, version := e.version })

/-! ## NetworkScanner.port_scan (scanner.py lines 167-190) -/

/-- Environment of a `port_scan` call: `nmapAvailable` models `self.nm` being
non-`None`, `nmapResp` the external tool's per-target port table, `probe` the
connect-probe outcomes, and `completionOrder` the per-target `as_completed`
order of the probe pool. -/
structure ScanEnv where
  nmapAvailable : Bool
  nmapResp : String → List NmapPortInfo
  probe : ProbeEnv
  completionOrder : String → List Int → List Int

/-- The per-target loop of `port_scan`: nmap handles `tcp_syn`/`udp` when
available, everything else goes through `_tcp_connect_scan`; an exception
escaping the connect scan aborts the loop and discards the partial dict.
(Duplicate targets would overwrite a dict entry rather than append; the claims
below do not depend on that.) -/
def port_scan_loop (env : ScanEnv) (ports scan_type : String) :
    List String → Except ScanError (List (String × List ScanResult))
  | [] => .ok []
  | t :: ts =>
    if env.nmapAvailable && (scan_type == "tcp_syn" || scan_type == "udp") then
      match port_scan_loop env ports scan_type ts with
      | .ok rest => .ok ((t, nmap_scan (env.nmapResp t) t) :: rest)
      | .error e => .error e
    else
      match tcp_connect_scan env.probe t ports (env.completionOrder t) with
      | .ok r =>
        match port_scan_loop env ports scan_type ts with
        | .ok rest => .ok ((t, r) :: rest)
        | .error e => .error e
      | .error e => .error e

/-- `NetworkScanner.port_scan`. -/
def port_scan (env : ScanEnv) (targets : List String) (ports : String)
    (scan_type : String) : Except ScanError (List (String × List ScanResult)) :=
  port_scan_loop env ports scan_type targets

/-! ## NetworkScanner.discover_hosts (scanner.py lines 81-165) -/

/-- Environment of a discovery call: `ipNetworkHosts` models
`list(ipaddress.ip_network(network, strict=False).hosts())` (`none` when the
constructor raises `ValueError` on a malformed range), `pingOk` the per-host
`ping` subprocess returning exit code 0, `tcpReachable` a successful
`connect_ex` on a common port, and `isLinux` the `platform.system()` gate for
the arp method. -/
structure DiscoverEnv where
  ipNetworkHosts : String → Option (List String)
  pingOk : String → Bool
  tcpReachable : String → Int → Bool
  isLinux : Bool

/-- `_ping_sweep` (lines 116-138): the hosts whose probe succeeded.  The
`as_completed` collection order is abstracted as the candidate order; the
claims proved here do not concern the order of the returned list. -/
def ping_sweep (env : DiscoverEnv) (hosts : List String) : List String :=
  hosts.filter env.pingOk

/-- The fixed common-port list of `_tcp_syn_sweep` (line 143). -/
def sweep_common_ports : List Int := [22, 23, 25, 53, 80, 110, 143, 443, 993, 995]

/-- `_tcp_syn_sweep` (lines 140-165): a host is live when some common port
accepts a connection; the `result not in active_hosts` dedup of the source is
a no-op on the distinct candidate addresses produced by `hosts()` and is
modelled by `eraseDups`. -/
def tcp_syn_sweep (env : DiscoverEnv) (hosts : List String) : List String :=
  (hosts.filter (fun h => sweep_common_ports.any (fun p => env.tcpReachable h p))).eraseDups

/-- Failures that the `try` block of `discover_hosts` can raise. -/
inductive DiscoverFailure where
  | rangeParseError
  | attributeError
deriving DecidableEq

/-- The `try` block of `discover_hosts` (lines 96-108): parse the range, then
dispatch on the method.  `method == "arp"` on Linux calls `self._arp_sweep`,
which is not defined anywhere in scanner.py, so it raises `AttributeError`;
any unknown method falls back to the ping sweep. -/
def discover_hosts_body (env : DiscoverEnv) (network method : String) :
    Except DiscoverFailure (List String) :=
  match env.ipNetworkHosts network with
  | none => .error .rangeParseError
  | some hosts =>
    if method = "ping" then .ok (ping_sweep env hosts)
    else if method = "arp" ∧ env.isLinux then .error .attributeError
    else if method = "tcp_syn" then .ok (tcp_syn_sweep env hosts)
    else .ok (ping_sweep env hosts)

/-- `NetworkScanner.discover_hosts`: the whole body is wrapped in
`try/except Exception` which logs the failure, so every failure — including a
malformed range — leaves `active_hosts` at its initial `[]`, which is
returned; no exception reaches the caller. -/
def discover_hosts (env : DiscoverEnv) (network method : String) : List String :=
  match discover_hosts_body env network method with
  | .ok hs => hs
  | .error _ => []

/-! ## NetworkScanner.service_detection (scanner.py lines 328-399) -/

/-- Outcome of the secondary per-result probe of `service_detection`:
`connectFail` models `socket()`/`connect` raising (caught at lines 353-354);
`connected io` models a successful connect, with `io` the payload obtained by
the service-specific send/recv (`none` when `send`/`recv` raised inside the
detector, caught there). -/
inductive DetectOutcome where
  | connectFail
  | connected (io : Option String)
deriving DecidableEq

/-- The network as seen by the secondary probes, per scan result. -/
def DetectEnv : Type := ScanResult → DetectOutcome

/-- Characters after the first `':'` (Python `line.split(':', 1)[1]`). -/
def afterFirstColon : List Char → List Char
  | [] => []
  | ':' :: rest => rest
  | _ :: rest => afterFirstColon rest

/-- `_detect_web_service` (lines 360-377): the first response line whose
lowercase form starts with `"server:"` sets `version` to the text after the
colon, stripped; on a failed or header-less exchange the result is returned
unchanged. -/
def detect_web_service : Option String → ScanResult → ScanResult
  | none, result => result
  | some response, result =>
    match (strSplit '\n' response).find? (fun line => startsWithStr "server:" (lowerStr line)) with
    | some line => { result with version := pyStripStr (String.mk (afterFirstColon line.toList)) }
    | none => result

/-- `_detect_ssh_service` (lines 379-388): a received banner starting with
`"SSH-"` sets `version` to the stripped banner; otherwise unchanged. -/
def detect_ssh_service : Option String → ScanResult → ScanResult
  | none, result => result
  | some banner, result =>
    if startsWithStr "SSH-" banner then { result with version := pyStripStr banner }
    else result

/-- `_detect_ftp_service` (lines 390-399): a received banner containing
`"220"` sets `banner` to the stripped text; `service` and `version` are never
touched. -/
def detect_ftp_service : Option String → ScanResult → ScanResult
  | none, result => result
  | some banner, result =>
    if hasSubstr "220" banner then { result with banner := pyStripStr banner }
    else result

/-- Dispatch of the loop body on the probe outcome: a failed connect keeps the
result (exception caught at lines 353-354); on a successful connect the
already-known service selects the detector, and services without a dedicated
detector are passed through unchanged. -/
def apply_detector : DetectOutcome → ScanResult → ScanResult
  | .connectFail, result => result
  | .connected io, result =>
    if result.service = "http" ∨ result.service = "https" then detect_web_service io result
    else if result.service = "ssh" then detect_ssh_service io result
    else if result.service = "ftp" then detect_ftp_service io result
    else result

/-- The per-result body of the `service_detection` loop (lines 334-356). -/
def service_detect_one (env : DetectEnv) (result : ScanResult) : ScanResult :=
  apply_detector (env result) result

/-- `NetworkScanner.service_detection`. -/
def service_detection (env : DetectEnv) (scan_results : List ScanResult) : List ScanResult :=
  scan_results.map (service_detect_one env)

/-- A response the service-specific parser recognizes: a `server:` header line
for web services, an `SSH-` banner for ssh, a `220` greeting for ftp; services
without a detector recognize nothing. -/
def recognizedResponse (r : ScanResult) (resp : String) : Bool :=
  if r.service = "http" ∨ r.service = "https" then
    (strSplit '\n' resp).any (fun line => startsWithStr "server:" (lowerStr line))
  else if r.service = "ssh" then startsWithStr "SSH-" resp
  else if r.service = "ftp" then hasSubstr "220" resp
  else false

/-- A failed secondary probe in the sense of the frame claim: connection
error, send/receive error, or a response the parser does not recognize. -/
def probeFails (r : ScanResult) (o : DetectOutcome) : Prop :=
  o = .connectFail ∨ o = .connected none ∨
    ∃ resp, o = .connected (some resp) ∧ recognizedResponse r resp = false

/-! ## VulnerabilityScanner (`nsaf/core/vulnerability_scanner.py`)

The module `nsaf/core/vulnerability_scanner.py` itself is not under `src/`;
only its importers (`nsaf/__init__.py`, `nsaf/core/__init__.py`), its tests
(`tests/test_nsaf.py`), a subclass (`examples/advanced_scan.py`) and callers
(`nsaf_cli.py`, `examples/basic_scan.py`, `demo.py`) are.  The definitions in
this section are therefore modelled from the spec (§3 data model, §4.4
VulnerabilityRuleEngine), with field names, id formats, severities and CVSS
values anchored by the in-repo evidence (`demo.py` sample findings,
`tests/test_nsaf.py` constructor calls). -/

/-- Modelled from the spec: dataclass `Vulnerability` of the missing
`nsaf/core/vulnerability_scanner.py` (spec §3; field names and defaults from
`tests/test_nsaf.py` and `demo.py`).  `cvss_score` is a numeric score,
modelled as a rational; `timestamp` is the assessment wall-clock time. -/
structure Vulnerability where
  vuln_id : String
  title : String
  description : String
  severity : String
  cvss_score : ℚ := 0
  affected_service : String := ""
  host : String := ""
  port : Int := 0
  evidence : String := ""
  remediation : String := ""
  references : List String := []
  timestamp : Nat := 0
deriving DecidableEq

/-- Modelled from the spec: dataclass `SecurityIssue` of the missing
`nsaf/core/vulnerability_scanner.py` (spec §3; field names from
`tests/test_nsaf.py` and `demo.py`). -/
structure SecurityIssue where
  issue_id : String
  category : String
  title : String
  description : String
  risk_level : String
  host : String := ""
  service : String := ""
  evidence : String := ""
  recommendation : String := ""
  timestamp : Nat := 0
deriving DecidableEq

/-- Modelled from the spec: the engine instance (`VulnerabilityScanner`
class), holding a timeout and the per-call accumulator lists visible to the
tests (`scanner.vulnerabilities`, `scanner.security_issues`). -/
structure VulnerabilityScanner where
  timeout : Int := 5
  vulnerabilities : List Vulnerability := []
  security_issues : List SecurityIssue := []

/-- Modelled from the spec: the static table of clear-text protocols of the
weak-protocol check (spec §4.4a), `service ↦ (severity, cvss)`; entries for
telnet/ftp anchored by `demo.py` (telnet high 7.5, ftp medium 5.3). -/
def weak_protocols : List (String × String × ℚ) :=
  [("telnet", ("high", 75/10)), ("ftp", ("medium", 53/10)),
   ("http", ("medium", 53/10)), ("smtp", ("medium", 53/10)),
   ("pop3", ("medium", 53/10)), ("imap", ("medium", 53/10))]

/-- Modelled from the spec: the static `port ↦ product` table of the
exposed-database check (spec §4.4b, §8: 3306 ↦ mysql, 5432 ↦ postgresql). -/
def db_products : List (Int × String) :=
  [(3306, "mysql"), (5432, "postgresql"), (1433, "mssql"),
   (27017, "mongodb"), (6379, "redis")]

/-- Modelled from the spec: the static "commonly targeted" port set of the
dangerous-port check (spec §4.4c), `port ↦ risk level`; 445 medium and 3389
high anchored by `demo.py`. -/
def dangerous_ports : List (Int × String) :=
  [(135, "medium"), (139, "medium"), (445, "medium"),
   (1433, "high"), (3389, "high"), (5900, "medium")]

/-- Modelled from the spec: conventional default ports of the
default-configuration check (spec §4.4d). -/
def default_service_ports : List (String × Int) :=
  [("ftp", 21), ("ssh", 22), ("telnet", 23), ("smtp", 25), ("http", 80),
   ("https", 443), ("mysql", 3306), ("postgresql", 5432), ("rdp", 3389)]

/-- Modelled from the spec: `_check_weak_protocols` — one Vulnerability per
scan result whose service is in the clear-text table, with severity and CVSS
fixed per protocol and the id derived from (check-kind, service, host, port)
(spec §3; id format from `demo.py`). -/
def check_weak_protocols (host : String) (results : List ScanResult) : List Vulnerability :=
  results.filterMap (fun r =>
    (tableLookup weak_protocols r.service).map (fun sc =>
      { vuln_id := "WEAK_PROTO_" ++ upperStr r.service ++ "_" ++ host ++ "_" ++ toString r.port,
        title := "Insecure Protocol: " ++ upperStr r.service,
        description := "The service transmits data in clear text",
        severity := sc.1, cvss_score := sc.2,
        affected_service := r.service, host := host, port := r.port,
        evidence := "Service detected on an open port",
        remediation := "Use a secure alternative protocol" }))

/-- Modelled from the spec: `_check_database_exposure` — presence of a port in
the database table alone triggers a high-severity Vulnerability (spec §4.4b;
id format and CVSS 7.5 from `demo.py`). -/
def check_database_exposure (host : String) (results : List ScanResult) : List Vulnerability :=
  results.filterMap (fun r =>
    (tableLookup db_products r.port).map (fun product =>
      { vuln_id := "DB_EXPOSURE_" ++ upperStr product ++ "_" ++ host ++ "_" ++ toString r.port,
        title := "Exposed Database: " ++ product,
        description := "A database service is accessible from the network",
        severity := "high", cvss_score := 75/10,
        affected_service := product, host := host, port := r.port,
        evidence := "Database service detected on an open port",
        remediation := "Restrict database access and require authentication" }))

/-- Modelled from the spec: `_check_dangerous_ports` — a SecurityIssue with a
per-port fixed risk level for every open commonly-targeted port (spec §4.4c;
id format from `demo.py`). -/
def check_dangerous_ports (host : String) (results : List ScanResult) : List SecurityIssue :=
  results.filterMap (fun r =>
    (tableLookup dangerous_ports r.port).map (fun risk =>
      { issue_id := "DANGEROUS_PORT_" ++ toString r.port ++ "_" ++ host,
        category := "Network Security",
        title := "Potentially Dangerous Port Open: " ++ toString r.port,
        description := "The port is open and may represent a security risk",
        risk_level := risk, host := host, service := r.service,
        evidence := "The port is accessible",
        recommendation := "Close the port or restrict access to it" }))

/-- Modelled from the spec: `_check_default_configurations` — a medium-risk
SecurityIssue for a service found on its conventional default port (spec
§4.4d). -/
def check_default_configurations (host : String) (results : List ScanResult) : List SecurityIssue :=
  results.filterMap (fun r =>
    match tableLookup default_service_ports r.service with
    | some p =>
      if r.port = p then
        some { issue_id := "DEFAULT_PORT_" ++ upperStr r.service ++ "_" ++ host,
               category := "Configuration",
               title := "Service Running on Default Port",
               description := "The service runs on its conventional default port",
               risk_level := "medium", host := host, service := r.service,
               evidence := "Service detected on its default port",
               recommendation := "Consider moving the service to a non-standard port" }
      else none
    | none => none)

/-- Modelled from the spec: the vulnerability half of the check battery, run
against every (host, ScanResult) pair in input order, each finding stamped
with the assessment time (spec §4.4 a-b). -/
def collect_vulnerabilities (now : Nat) (scan_results : List (String × List ScanResult)) :
    List Vulnerability :=
  ((scan_results.map (fun hr => check_weak_protocols hr.1 hr.2 ++
      check_database_exposure hr.1 hr.2)).flatten).map
    (fun v => { v with timestamp := now })

/-- Modelled from the spec: the security-issue half of the check battery
(spec §4.4 c-d). -/
def collect_issues (now : Nat) (scan_results : List (String × List ScanResult)) :
    List SecurityIssue :=
  ((scan_results.map (fun hr => check_dangerous_ports hr.1 hr.2 ++
      check_default_configurations hr.1 hr.2)).flatten).map
    (fun i => { i with timestamp := now })

/-- The five recognized severity levels, in display order (spec §3). -/
def severity_levels : List String := ["critical", "high", "medium", "low", "info"]

/-- Modelled from the spec: the summary's severity histogram — exactly the
five recognized levels, absent levels shown as zero (spec §4.4). -/
def severity_distribution (vulns : List Vulnerability) : List (String × Nat) :=
  severity_levels.map (fun l => (l, vulns.countP (fun v => v.severity == l)))

/-- Modelled from the spec: summary record of an AssessmentReport (spec §3;
key names from `demo.py` / `report_generator.py`). -/
structure AssessmentSummary where
  total_vulnerabilities : Nat
  total_security_issues : Nat
  severity_distribution : List (String × Nat)
  affected_hosts : List String
  assessment_date : Nat
deriving DecidableEq

/-- Modelled from the spec: `AssessmentReport` (spec §3). -/
structure AssessmentReport where
  vulnerabilities : List Vulnerability
  security_issues : List SecurityIssue
  summary : AssessmentSummary
  recommendations : List String
deriving DecidableEq

/-- Modelled from the spec: the fixed base list of general hardening
recommendations, always present even with zero findings (spec §4.4; wording
from `demo.py`). -/
def base_recommendations : List String :=
  ["Address high-severity vulnerabilities immediately",
   "Replace insecure protocols with secure alternatives",
   "Implement proper database access controls",
   "Use network segmentation to limit exposure",
   "Deploy intrusion detection systems",
   "Conduct regular security assessments",
   "Implement security monitoring and logging"]

/-- Modelled from the spec: `VulnerabilityScanner.assess` — each call
allocates fresh accumulators (no engine instance mutable state is read; spec
§4.4, §5), runs the fixed check battery, and synthesizes counts, the
five-level severity histogram, the distinct affected-host set, the assessment
timestamp `now`, and the fixed base recommendations.  The returned engine
carries the freshly built lists in its instance fields. -/
def assess (engine : VulnerabilityScanner) (scan_results : List (String × List ScanResult))
    (now : Nat) : AssessmentReport × VulnerabilityScanner :=
  let vulns := collect_vulnerabilities now scan_results
  let issues := collect_issues now scan_results
  (⟨vulns, issues,
    ⟨vulns.length, issues.length, severity_distribution vulns,
     (vulns.map (fun v => v.host)).eraseDups, now⟩,
    base_recommendations⟩,
   { engine with vulnerabilities := vulns, security_issues := issues })

/-! ## Concrete environments and records used in closed theorems below -/

/-- Environment in which every range string fails to parse but every probe
would report a live host. -/
def badRangeEnv : DiscoverEnv :=
  { ipNetworkHosts := fun _ => none, pingOk := fun _ => true,
    tcpReachable := fun _ _ => true, isLinux := false }

/-- A `port_scan` environment with nmap available whose external tool reports
port 443 before port 80 (both open) for every target. -/
def nmapOutOfOrderEnv : ScanEnv :=
  { nmapAvailable := true,
    nmapResp := fun _ => [⟨443, "open", "https", ""⟩, ⟨80, "open", "http", ""⟩],
    probe := fun _ _ => .refusedOrTimeout,
    completionOrder := fun _ l => l }

/-- A `port_scan` environment with nmap available whose external tool reports
a single open port 80 for every target. -/
def nmapMalformedEnv : ScanEnv :=
  { nmapAvailable := true, nmapResp := fun _ => [⟨80, "open", "http", ""⟩],
    probe := fun _ _ => .refusedOrTimeout, completionOrder := fun _ l => l }

/-- A `port_scan` environment without nmap in which every connect probe
succeeds with no banner. -/
def openProbeEnv : ScanEnv :=
  { nmapAvailable := false, nmapResp := fun _ => [],
    probe := fun _ _ => .opened none, completionOrder := fun _ l => l }

/-- A secondary-probe environment that always connects and receives a payload
no detector recognizes. -/
def garbageDetectEnv : DetectEnv := fun _ => .connected (some "garbage")

/-- An ssh scan result with previously-known service and version. -/
def r22ssh : ScanResult :=
  ⟨"192.0.2.5", 22, "open", "ssh", "OpenSSH 7.4", ""⟩

/-- The scan result produced by an open port 22 with no banner. -/
def r22open : ScanResult := ⟨"192.0.2.7", 22, "open", "ssh", "", ""⟩

/-- The scan result produced by an open port 80 with no banner. -/
def r80open : ScanResult := ⟨"192.0.2.7", 80, "open", "http", "", ""⟩

/-- The out-of-order nmap-path scan results for target 10.0.0.1. -/
def nmapR443 : ScanResult := ⟨"10.0.0.1", 443, "open", "https", "", ""⟩

/-- Companion of `nmapR443`: the port-80 row, reported second. -/
def nmapR80 : ScanResult := ⟨"10.0.0.1", 80, "open", "http", "", ""⟩

/-! ## Helper lemmas -/

/-- A successful table lookup returns one of the table's values. -/
theorem tableLookup_mem_values {κ β : Type} [DecidableEq κ] :
    ∀ (t : List (κ × β)) (k : κ) (v : β),
      tableLookup t k = some v → v ∈ t.map Prod.snd := by
  intro t
  induction t with
  | nil => intro k v h; cases h
  | cons p rest ih =>
    intro k v h
    obtain ⟨pk, pv⟩ := p
    unfold tableLookup at h
    by_cases hk : k = pk
    · rw [if_pos hk] at h
      injection h with h
      simp [h]
    · rw [if_neg hk] at h
      exact List.mem_cons_of_mem _ (ih k v h)

/-- Sum of a pointwise sum of two `Nat`-valued maps. -/
theorem sum_map_add_nat {α : Type} (f g : α → ℕ) (keys : List α) :
    (keys.map (fun k => f k + g k)).sum = (keys.map f).sum + (keys.map g).sum := by
  induction keys with
  | nil => rfl
  | cons k ks ih =>
    simp only [List.map_cons, List.sum_cons, ih]
    omega

/-- Over a duplicate-free key list containing `s`, the indicator of `s` sums
to one. -/
theorem sum_indicator (s : String) :
    ∀ keys : List String, keys.Nodup → s ∈ keys →
      (keys.map (fun k => if s == k then 1 else 0)).sum = 1 := by
  intro keys
  induction keys with
  | nil => intro _ hmem; cases hmem
  | cons k ks ih =>
    intro hnd hmem
    simp only [List.map_cons, List.sum_cons]
    rcases List.mem_cons.mp hmem with rfl | hmem2
    · have hnotin : s ∉ ks := (List.nodup_cons.mp hnd).1
      have hz : (ks.map (fun k => if s == k then 1 else 0)).sum = 0 := by
        apply List.sum_eq_zero
        intro x hx
        rcases List.mem_map.mp hx with ⟨k2, hk2, rfl⟩
        have hne : s ≠ k2 := fun h => hnotin (h ▸ hk2)
        simp [hne]
      rw [hz]
      simp
    · have hne : s ≠ k := fun h => (List.nodup_cons.mp hnd).1 (h ▸ hmem2)
      have h1 : (ks.map (fun k => if s == k then 1 else 0)).sum = 1 :=
        ih (List.nodup_cons.mp hnd).2 hmem2
      rw [h1]
      simp [hne]

/-- Counting each key's occurrences over a duplicate-free key list that covers
every element partitions the list: the counts sum to its length. -/
theorem sum_countP_eq_length {α : Type} (f : α → String) (keys : List String)
    (hnd : keys.Nodup) :
    ∀ xs : List α, (∀ x ∈ xs, f x ∈ keys) →
      (keys.map (fun k => xs.countP (fun x => f x == k))).sum = xs.length := by
  intro xs
  induction xs with
  | nil =>
    intro _
    simp only [List.countP_nil, List.length_nil]
    exact List.sum_eq_zero (by intro x hx; rcases List.mem_map.mp hx with ⟨_, _, rfl⟩; rfl)
  | cons a as ih =>
    intro hmem
    have h1 : ∀ x ∈ as, f x ∈ keys := fun x hx => hmem x (List.mem_cons_of_mem _ hx)
    have h2 : f a ∈ keys := hmem a (List.mem_cons_self _ _)
    simp only [List.countP_cons, List.length_cons]
    rw [sum_map_add_nat (fun k => as.countP (fun x => f x == k))
      (fun k => if f a == k then 1 else 0) keys]
    rw [ih h1, sum_indicator (f a) keys hnd h2]

/-- Every vulnerability the check battery emits carries one of the five
recognized severity levels: the weak-protocol severities come from the static
table and the database check always emits "high". -/
theorem collect_vulnerabilities_severity (now : Nat)
    (S : List (String × List ScanResult)) :
    ∀ v ∈ collect_vulnerabilities now S, v.severity ∈ severity_levels := by
  intro v hv
  unfold collect_vulnerabilities at hv
  rcases List.mem_map.mp hv with ⟨v0, hv0, rfl⟩
  suffices h : v0.severity ∈ severity_levels by simpa using h
  rcases List.mem_flatten.mp hv0 with ⟨grp, hgrp, hvgrp⟩
  rcases List.mem_map.mp hgrp with ⟨hr, _, rfl⟩
  rcases List.mem_append.mp hvgrp with h | h
  · rcases List.mem_filterMap.mp h with ⟨r, _, hsome⟩
    cases hlook : tableLookup weak_protocols r.service with
    | none => rw [hlook] at hsome; cases hsome
    | some sc =>
      rw [hlook] at hsome
      injection hsome with hv2
      have hmem : sc ∈ weak_protocols.map Prod.snd :=
        tableLookup_mem_values weak_protocols r.service sc hlook
      have hall : ∀ p ∈ weak_protocols.map Prod.snd, p.1 ∈ severity_levels := by decide
      rw [← hv2]
      exact hall sc hmem
  · rcases List.mem_filterMap.mp h with ⟨r, _, hsome⟩
    cases hlook : tableLookup db_products r.port with
    | none => rw [hlook] at hsome; cases hsome
    | some product =>
      rw [hlook] at hsome
      injection hsome with hv2
      rw [← hv2]
      exact (by decide : ("high" : String) ∈ severity_levels)

/-- The nmap path only ever emits results whose state is the `"open"` it
filtered on. -/
theorem nmap_scan_state_open (resp : List NmapPortInfo) (t : String) :
    ∀ r ∈ nmap_scan resp t, r.state = "open" := by
  intro r hr
  unfold nmap_scan at hr
  rcases List.mem_map.mp hr with ⟨e, he, rfl⟩
  exact of_decide_eq_true (List.mem_filter.mp he).2

/-- A successful connect scan only contains results built with
`state := "open"`. -/
theorem tcp_connect_scan_state_open (env : ProbeEnv) (t ports : String)
    (σ : List Int → List Int) (l : List ScanResult)
    (h : tcp_connect_scan env t ports σ = .ok l) :
    ∀ r ∈ l, r.state = "open" := by
  unfold tcp_connect_scan at h
  cases hp : parse_ports ports with
  | none => rw [hp] at h; cases h
  | some pl =>
    rw [hp] at h
    cases h
    intro r hr
    have hr2 : r ∈ (σ pl).filterMap (scan_port env t) :=
      ((List.perm_insertionSort portLE _).mem_iff).mp hr
    rcases List.mem_filterMap.mp hr2 with ⟨p, _, hp2⟩
    unfold scan_port at hp2
    cases henv : env t p with
    | opened recvd =>
      rw [henv] at hp2
      simp only [Option.some.injEq] at hp2
      rw [← hp2]
    | refusedOrTimeout => rw [henv] at hp2; cases hp2
    | errored => rw [henv] at hp2; cases hp2

/-- A successful connect scan returns the insertion-sorted list, hence a list
sorted by port. -/
theorem tcp_connect_scan_ok_sorted (env : ProbeEnv) (t ports : String)
    (σ : List Int → List Int) (l : List ScanResult)
    (h : tcp_connect_scan env t ports σ = .ok l) :
    List.Sorted portLE l := by
  unfold tcp_connect_scan at h
  cases hp : parse_ports ports with
  | none => rw [hp] at h; cases h
  | some pl =>
    rw [hp] at h
    cases h
    exact List.sorted_insertionSort portLE _

/-- Over the whole target loop, every returned result is an open one. -/
theorem port_scan_loop_open_only (env : ScanEnv) (ports scan_type : String) :
    ∀ (targets : List String) (m : List (String × List ScanResult)),
      port_scan_loop env ports scan_type targets = .ok m →
      ∀ h l, (h, l) ∈ m → ∀ r ∈ l, r.state = "open" := by
  intro targets
  induction targets with
  | nil =>
    intro m hm
    unfold port_scan_loop at hm
    cases hm
    simp
  | cons t ts ih =>
    intro m hm
    unfold port_scan_loop at hm
    by_cases hc : (env.nmapAvailable && (scan_type == "tcp_syn" || scan_type == "udp")) = true
    · rw [if_pos hc] at hm
      cases hrest : port_scan_loop env ports scan_type ts with
      | error e => rw [hrest] at hm; cases hm
      | ok rest =>
        rw [hrest] at hm
        cases hm
        intro h l hmem
        rcases List.mem_cons.mp hmem with heq | hmem2
        · have hl : l = nmap_scan (env.nmapResp t) t := congrArg Prod.snd heq
          rw [hl]
          exact nmap_scan_state_open _ _
        · exact ih rest hrest h l hmem2
    · rw [if_neg hc] at hm
      cases htc : tcp_connect_scan env.probe t ports (env.completionOrder t) with
      | error e => rw [htc] at hm; cases hm
      | ok r =>
        rw [htc] at hm
        cases hrest : port_scan_loop env ports scan_type ts with
        | error e => rw [hrest] at hm; cases hm
        | ok rest =>
          rw [hrest] at hm
          cases hm
          intro h l hmem
          rcases List.mem_cons.mp hmem with heq | hmem2
          · have hl : l = r := congrArg Prod.snd heq
            rw [hl]
            exact tcp_connect_scan_state_open _ _ _ _ _ htc
          · exact ih rest hrest h l hmem2

/-- Over the whole target loop, when no target is routed to nmap every
returned per-host list is sorted by port. -/
theorem port_scan_loop_sorted (env : ScanEnv) (ports scan_type : String)
    (hc : (env.nmapAvailable && (scan_type == "tcp_syn" || scan_type == "udp")) = false) :
    ∀ (targets : List String) (m : List (String × List ScanResult)),
      port_scan_loop env ports scan_type targets = .ok m →
      ∀ h l, (h, l) ∈ m → List.Sorted portLE l := by
  intro targets
  induction targets with
  | nil =>
    intro m hm
    unfold port_scan_loop at hm
    cases hm
    simp
  | cons t ts ih =>
    intro m hm
    unfold port_scan_loop at hm
    rw [hc] at hm
    simp only [Bool.false_eq_true, if_false] at hm
    cases htc : tcp_connect_scan env.probe t ports (env.completionOrder t) with
    | error e => rw [htc] at hm; cases hm
    | ok r =>
      rw [htc] at hm
      cases hrest : port_scan_loop env ports scan_type ts with
      | error e => rw [hrest] at hm; cases hm
      | ok rest =>
        rw [hrest] at hm
        cases hm
        intro h l hmem
        rcases List.mem_cons.mp hmem with heq | hmem2
        · have hl : l = r := congrArg Prod.snd heq
          rw [hl]
          exact tcp_connect_scan_ok_sorted _ _ _ _ _ htc
        · exact ih rest hrest h l hmem2

/-- The web detector never writes the `service` field. -/
theorem detect_web_service_service (io : Option String) (r : ScanResult) :
    (detect_web_service io r).service = r.service := by
  cases io with
  | none => rfl
  | some resp =>
    simp only [detect_web_service]
    cases (strSplit '\n' resp).find? (fun line => startsWithStr "server:" (lowerStr line)) with
    | none => rfl
    | some line => rfl

/-- The ssh detector never writes the `service` field. -/
theorem detect_ssh_service_service (io : Option String) (r : ScanResult) :
    (detect_ssh_service io r).service = r.service := by
  cases io with
  | none => rfl
  | some banner =>
    simp only [detect_ssh_service]
    by_cases h : startsWithStr "SSH-" banner = true
    · rw [if_pos h]
    · rw [if_neg h]

/-- The ftp detector never writes the `service` field. -/
theorem detect_ftp_service_service (io : Option String) (r : ScanResult) :
    (detect_ftp_service io r).service = r.service := by
  cases io with
  | none => rfl
  | some banner =>
    simp only [detect_ftp_service]
    by_cases h : hasSubstr "220" banner = true
    · rw [if_pos h]
    · rw [if_neg h]

/-- The ftp detector never writes the `version` field at all. -/
theorem detect_ftp_service_version (io : Option String) (r : ScanResult) :
    (detect_ftp_service io r).version = r.version := by
  cases io with
  | none => rfl
  | some banner =>
    simp only [detect_ftp_service]
    by_cases h : hasSubstr "220" banner = true
    · rw [if_pos h]
    · rw [if_neg h]

/-- A response without a `server:` header leaves the web detector's `version`
unchanged. -/
theorem detect_web_service_version_unrec (resp : String) (r : ScanResult)
    (h : (strSplit '\n' resp).any (fun line => startsWithStr "server:" (lowerStr line)) = false) :
    (detect_web_service (some resp) r).version = r.version := by
  simp only [detect_web_service]
  have hfind : (strSplit '\n' resp).find?
      (fun line => startsWithStr "server:" (lowerStr line)) = none := by
    rw [List.find?_eq_none]
    intro x hx hpx
    have hany : (strSplit '\n' resp).any
        (fun line => startsWithStr "server:" (lowerStr line)) = true :=
      List.any_eq_true.mpr ⟨x, hx, hpx⟩
    rw [hany] at h
    cases h
  rw [hfind]

/-- A banner not starting with `SSH-` leaves the ssh detector's `version`
unchanged. -/
theorem detect_ssh_service_version_unrec (banner : String) (r : ScanResult)
    (h : startsWithStr "SSH-" banner = false) :
    (detect_ssh_service (some banner) r).version = r.version := by
  simp only [detect_ssh_service]
  rw [if_neg (by rw [h]; exact Bool.false_ne_true)]

/-- None of the detectors ever writes the `service` field. -/
theorem service_detect_one_service (env : DetectEnv) (r : ScanResult) :
    (service_detect_one env r).service = r.service := by
  unfold service_detect_one
  cases env r with
  | connectFail => rfl
  | connected io =>
    simp only [apply_detector]
    by_cases h1 : r.service = "http" ∨ r.service = "https"
    · rw [if_pos h1]
      exact detect_web_service_service io r
    · rw [if_neg h1]
      by_cases h2 : r.service = "ssh"
      · rw [if_pos h2]
        exact detect_ssh_service_service io r
      · rw [if_neg h2]
        by_cases h3 : r.service = "ftp"
        · rw [if_pos h3]
          exact detect_ftp_service_service io r
        · rw [if_neg h3]

/-- A failed secondary probe leaves the `version` field unchanged. -/
theorem service_detect_one_version (env : DetectEnv) (r : ScanResult)
    (hfail : probeFails r (env r)) :
    (service_detect_one env r).version = r.version := by
  unfold service_detect_one
  rcases hfail with h | h | ⟨resp, h, hrec⟩
  · rw [h]
    rfl
  · rw [h]
    simp only [apply_detector]
    by_cases h1 : r.service = "http" ∨ r.service = "https"
    · rw [if_pos h1]
      rfl
    · rw [if_neg h1]
      by_cases h2 : r.service = "ssh"
      · rw [if_pos h2]
        rfl
      · rw [if_neg h2]
        by_cases h3 : r.service = "ftp"
        · rw [if_pos h3]
          rfl
        · rw [if_neg h3]
  · rw [h]
    simp only [apply_detector]
    unfold recognizedResponse at hrec
    by_cases h1 : r.service = "http" ∨ r.service = "https"
    · rw [if_pos h1] at hrec
      rw [if_pos h1]
      exact detect_web_service_version_unrec resp r hrec
    · rw [if_neg h1] at hrec
      rw [if_neg h1]
      by_cases h2 : r.service = "ssh"
      · rw [if_pos h2] at hrec
        rw [if_pos h2]
        exact detect_ssh_service_version_unrec resp r hrec
      · rw [if_neg h2] at hrec
        rw [if_neg h2]
        by_cases h3 : r.service = "ftp"
        · rw [if_pos h3]
          exact detect_ftp_service_version (some resp) r
        · rw [if_neg h3]

/-! ## Claim theorems -/

/-- C4: parsing `"22,80-82,443"` yields exactly the ports
`[22, 80, 81, 82, 443]`, while the malformed specs `"80-"` and `""` raise
(`none`), never returning a port list. -/
theorem parse_ports_cases :
    parse_ports "22,80-82,443" = some [22, 80, 81, 82, 443] ∧
    parse_ports "80-" = none ∧
    parse_ports "" = none :=
  ⟨by decide, by decide, by decide⟩

/-- C10: a range token `a-b` with `a > b` parses without error and contributes
no ports — `range(a, b+1)` is empty — so a spec consisting only of such tokens
parses to the empty port list and the connect scan of it probes nothing and
returns no results, for every probe environment and completion order. -/
theorem range_token_reversed_empty :
    (∀ a b : Int, b < a → pyRangeIncl a b = []) ∧
    parse_ports "80-22" = some [] ∧
    parse_ports "80-22,90-50" = some [] ∧
    (∀ (env : ProbeEnv) (σ : List Int → List Int), (∀ l, (σ l).Perm l) →
      tcp_connect_scan env "10.0.0.1" "80-22" σ = Except.ok []) := by
  refine ⟨?_, by decide, by decide, ?_⟩
  · intro a b hba
    unfold pyRangeIncl
    rw [if_neg (not_le.mpr hba)]
  · intro env σ hperm
    have h1 : parse_ports "80-22" = some [] := by decide
    have h2 : σ [] = [] := (hperm []).eq_nil
    simp only [tcp_connect_scan, h1]
    rw [h2]
    rfl

/-- C10 witness: the reversed range `80-22` at concrete inputs — the range is
empty and a concrete connect scan of the spec `"80-22"` returns no results. -/
theorem range_token_reversed_empty_witness :
    pyRangeIncl 80 22 = [] ∧
    tcp_connect_scan (fun _ _ => ProbeOutcome.opened none) "10.0.0.1" "80-22"
      (fun l => l) = Except.ok [] :=
  ⟨range_token_reversed_empty.1 80 22 (by decide),
   range_token_reversed_empty.2.2.2 (fun _ _ => ProbeOutcome.opened none)
     (fun l => l) (fun l => List.Perm.refl l)⟩

/-- C7: `identify(80,"") = "http"`, `identify(8080,"HTTP/1.1 200 OK") =
"http"`, `identify(2222,"SSH-2.0-OpenSSH_7.4") = "ssh"`, `identify(9999,"") =
"unknown"`; and whenever a non-empty banner matches a known protocol signature
(case-insensitive substring), the banner-derived service overrides the
port-based default: the result no longer depends on the port at all. -/
theorem identify_service_spec :
    identify_service 80 "" = "http" ∧
    identify_service 8080 "HTTP/1.1 200 OK" = "http" ∧
    identify_service 2222 "SSH-2.0-OpenSSH_7.4" = "ssh" ∧
    identify_service 9999 "" = "unknown" ∧
    (∀ (p q : Int) (banner : String), banner ≠ "" →
      (hasSubstr "http" (lowerStr banner) = true ∨
       hasSubstr "ssh" (lowerStr banner) = true ∨
       hasSubstr "ftp" (lowerStr banner) = true ∨
       hasSubstr "smtp" (lowerStr banner) = true) →
      identify_service p banner = identify_service q banner) := by
  refine ⟨by decide, by decide, by decide, by decide, ?_⟩
  intro p q banner hne hmatch
  by_cases h1 : hasSubstr "http" (lowerStr banner) = true
  · simp [identify_service, hne, h1]
  · by_cases h2 : hasSubstr "ssh" (lowerStr banner) = true
    · simp [identify_service, hne, h1, h2]
    · by_cases h3 : hasSubstr "ftp" (lowerStr banner) = true
      · simp [identify_service, hne, h1, h2, h3]
      · by_cases h4 : hasSubstr "smtp" (lowerStr banner) = true
        · simp [identify_service, hne, h1, h2, h3, h4]
        · rcases hmatch with h | h | h | h <;> contradiction

/-- C7 witness: a banner with an ssh signature yields the same service on a
mysql port as on an unknown port. -/
theorem identify_service_spec_witness :
    identify_service 3306 "SSH-2.0-OpenSSH_7.4" =
      identify_service 9999 "SSH-2.0-OpenSSH_7.4" :=
  identify_service_spec.2.2.2.2 3306 9999 "SSH-2.0-OpenSSH_7.4" (by decide)
    (Or.inr (Or.inl (by decide)))

/-- C6 counterexample: on a range string whose parse fails, `discover_hosts`
does not raise — the failure is produced inside the body, caught, and an
ordinary empty host list is returned to the caller (here in an environment
where any probe would have reported a live host, so no probing influenced the
result). -/
theorem discover_hosts_malformed_cx :
    discover_hosts_body badRangeEnv "999.999.999.999/24" "ping" =
      Except.error DiscoverFailure.rangeParseError ∧
    discover_hosts badRangeEnv "999.999.999.999/24" "ping" = [] :=
  ⟨rfl, rfl⟩

/-- C6 (amended): for every malformed network range, `discover_hosts` catches
the parse failure internally, starts no probe, and returns the empty list to
the caller instead of raising. -/
theorem discover_hosts_malformed_empty (env : DiscoverEnv) (network method : String)
    (hbad : env.ipNetworkHosts network = none) :
    discover_hosts env network method = [] := by
  simp [discover_hosts, discover_hosts_body, hbad]

/-- C6 witness: the amended behaviour at a concrete malformed range and a
different discovery method. -/
theorem discover_hosts_malformed_empty_witness :
    discover_hosts badRangeEnv "not-a-range" "tcp_syn" = [] :=
  discover_hosts_malformed_empty badRangeEnv "not-a-range" "tcp_syn" rfl

/-- C3 counterexample: with nmap available and an nmap-routed scan kind,
`port_scan` returns the external tool's rows in reporting order without a
sort — here `[443, 80]`, which is not sorted ascending by port, refuting the
claim for the nmap path. -/
theorem nmap_path_unsorted_cx :
    port_scan nmapOutOfOrderEnv ["10.0.0.1"] "1-1000" "tcp_syn" =
      Except.ok [("10.0.0.1", [nmapR443, nmapR80])] ∧
    ¬ List.Sorted portLE [nmapR443, nmapR80] := by
  constructor
  · rfl
  · intro hs
    have h1 : portLE nmapR443 nmapR80 :=
      List.rel_of_sorted_cons hs nmapR80 (List.mem_singleton_self _)
    exact absurd h1 (by decide)

/-- C3 (amended): every call routed to the connect-based scanner (nmap
unavailable, or a scan kind other than tcp_syn/udp) returns each host's
results sorted ascending by port, for every probe environment and every
completion order; the nmap path instead preserves the external tool's
reporting order. -/
theorem port_scan_connect_sorted (env : ScanEnv) (targets : List String)
    (ports scan_type : String)
    (hroute : env.nmapAvailable = false ∨ (scan_type ≠ "tcp_syn" ∧ scan_type ≠ "udp"))
    (m : List (String × List ScanResult))
    (hm : port_scan env targets ports scan_type = .ok m) :
    ∀ h l, (h, l) ∈ m → List.Sorted portLE l := by
  have hc : (env.nmapAvailable && (scan_type == "tcp_syn" || scan_type == "udp")) = false := by
    rcases hroute with h | ⟨h1, h2⟩
    · simp [h]
    · simp [h1, h2]
  unfold port_scan at hm
  exact port_scan_loop_sorted env ports scan_type hc targets m hm

/-- C3 witness: a concrete connect scan submitting port 80 before port 22
still returns the per-host list sorted ascending by port. -/
theorem port_scan_connect_sorted_witness :
    List.Sorted portLE [r22open, r80open] :=
  port_scan_connect_sorted openProbeEnv ["192.0.2.7"] "80,22" "tcp_connect"
    (Or.inl rfl) [("192.0.2.7", [r22open, r80open])] rfl
    "192.0.2.7" [r22open, r80open] (List.mem_singleton_self _)

/-- C5 counterexample: a malformed port spec does not always fail the call —
with nmap available and an nmap-routed scan kind the malformed string is
handed to the external tool unparsed and the call returns per-host result
lists; and with an empty target list the call returns an empty mapping
without ever parsing the spec. -/
theorem port_scan_malformed_nmap_cx :
    parse_ports "80-" = none ∧
    port_scan nmapMalformedEnv ["10.0.0.1"] "80-" "tcp_syn" =
      Except.ok [("10.0.0.1", [⟨"10.0.0.1", 80, "open", "http", "", ""⟩])] ∧
    port_scan nmapMalformedEnv [] "80-" "tcp_connect" = Except.ok [] :=
  ⟨by decide, rfl, rfl⟩

/-- C5 (amended): every `port_scan` call with at least one target that is
routed to the connect-based scanner (nmap unavailable, or a scan kind other
than tcp_syn/udp) fails on a malformed port spec before any network probe is
attempted — the outcome is the same error for every probe environment — and
produces no per-host result lists. -/
theorem port_scan_fail_fast (env : ScanEnv) (targets : List String)
    (ports scan_type : String) (hne : targets ≠ [])
    (hroute : env.nmapAvailable = false ∨ (scan_type ≠ "tcp_syn" ∧ scan_type ≠ "udp"))
    (hbad : parse_ports ports = none) :
    port_scan env targets ports scan_type = .error .valueError := by
  have hc : (env.nmapAvailable && (scan_type == "tcp_syn" || scan_type == "udp")) = false := by
    rcases hroute with h | ⟨h1, h2⟩
    · simp [h]
    · simp [h1, h2]
  cases targets with
  | nil => exact absurd rfl hne
  | cons t ts =>
    simp [port_scan, port_scan_loop, tcp_connect_scan, hc, hbad]

/-- C5 witness: the amended fail-fast behaviour at a concrete malformed spec
on the connect route. -/
theorem port_scan_fail_fast_witness :
    port_scan nmapMalformedEnv ["192.0.2.9"] "80-" "tcp_connect" =
      Except.error ScanError.valueError :=
  port_scan_fail_fast nmapMalformedEnv ["192.0.2.9"] "80-" "tcp_connect"
    (by simp) (Or.inr (by decide)) (by decide)

/-- C8: every `ScanResult` in any mapping returned by `port_scan` — on either
path, for every probe environment, nmap report and completion order — has
state `"open"`; refused, timed-out and errored probes contribute no entry. -/
theorem port_scan_open_only (env : ScanEnv) (targets : List String)
    (ports scan_type : String) (m : List (String × List ScanResult))
    (hm : port_scan env targets ports scan_type = .ok m) :
    ∀ h l, (h, l) ∈ m → ∀ r ∈ l, r.state = "open" := by
  unfold port_scan at hm
  exact port_scan_loop_open_only env ports scan_type targets m hm

/-- C8 witness: the open-only invariant applied to a concrete one-port scan. -/
theorem port_scan_open_only_witness :
    r22open.state = "open" := by
  have hm : port_scan openProbeEnv ["192.0.2.7"] "22" "tcp_connect" =
      Except.ok [("192.0.2.7", [r22open])] := rfl
  exact port_scan_open_only openProbeEnv ["192.0.2.7"] "22" "tcp_connect"
    [("192.0.2.7", [r22open])] hm "192.0.2.7" [r22open]
    (List.mem_singleton_self _) r22open (List.mem_singleton_self _)

/-- C9: for every scan result whose secondary probe fails — connection error,
send/receive error, or a response its parser does not recognize — the
corresponding entry of the list returned by `service_detection` keeps the
service and version it had before the call. -/
theorem service_detection_frame (env : DetectEnv) (rs : List ScanResult) (i : Nat)
    (r : ScanResult) (hi : rs[i]? = some r) (hfail : probeFails r (env r)) :
    ∃ rr, (service_detection env rs)[i]? = some rr ∧
      rr.service = r.service ∧ rr.version = r.version := by
  refine ⟨service_detect_one env r, ?_, service_detect_one_service env r,
    service_detect_one_version env r hfail⟩
  unfold service_detection
  rw [List.getElem?_map, hi]
  rfl

/-- C9 witness: a previously-known ssh version survives a secondary probe that
connects but receives an unrecognizable payload. -/
theorem service_detection_frame_witness :
    (service_detection garbageDetectEnv [r22ssh])[0]?.map (fun rr => rr.version) =
      some "OpenSSH 7.4" := by
  obtain ⟨rr, h1, _, h3⟩ := service_detection_frame garbageDetectEnv [r22ssh] 0 r22ssh rfl
    (Or.inr (Or.inr ⟨"garbage", rfl, by decide⟩))
  rw [h1]
  simp [h3, r22ssh]

/-- The vulnerability id list depends only on the scan results, not on the
assessment time stamped into each finding. -/
theorem collect_vuln_ids_time_invariant (t : Nat)
    (S : List (String × List ScanResult)) :
    (collect_vulnerabilities t S).map (fun v => v.vuln_id) =
      (collect_vulnerabilities 0 S).map (fun v => v.vuln_id) := by
  unfold collect_vulnerabilities
  rw [List.map_map, List.map_map]
  rfl

/-- The issue id list depends only on the scan results, not on the assessment
time. -/
theorem collect_issue_ids_time_invariant (t : Nat)
    (S : List (String × List ScanResult)) :
    (collect_issues t S).map (fun i => i.issue_id) =
      (collect_issues 0 S).map (fun i => i.issue_id) := by
  unfold collect_issues
  rw [List.map_map, List.map_map]
  rfl

/-- The number of vulnerabilities depends only on the scan results. -/
theorem collect_vuln_length_time_invariant (t : Nat)
    (S : List (String × List ScanResult)) :
    (collect_vulnerabilities t S).length = (collect_vulnerabilities 0 S).length := by
  unfold collect_vulnerabilities
  rw [List.length_map, List.length_map]

/-- The number of security issues depends only on the scan results. -/
theorem collect_issue_length_time_invariant (t : Nat)
    (S : List (String × List ScanResult)) :
    (collect_issues t S).length = (collect_issues 0 S).length := by
  unfold collect_issues
  rw [List.length_map, List.length_map]

/-- The severity histogram depends only on the scan results. -/
theorem severity_distribution_time_invariant (t : Nat)
    (S : List (String × List ScanResult)) :
    severity_distribution (collect_vulnerabilities t S) =
      severity_distribution (collect_vulnerabilities 0 S) := by
  unfold severity_distribution collect_vulnerabilities
  simp only [List.countP_map]
  rfl

/-- C1: assessing the same well-formed scan-results mapping twice on the same
engine instance — the second call running on the engine state left by the
first, at a possibly different wall-clock time — yields identical
vulnerability and issue id lists and identical summary counts and severity
histogram: ids are derived only from (check-kind, service, host, port), and
the instance accumulators carried over from the first call are never read. -/
theorem assess_idempotent (e : VulnerabilityScanner)
    (S : List (String × List ScanResult)) (t1 t2 : Nat) :
    (assess e S t1).1.vulnerabilities.map (fun v => v.vuln_id) =
      (assess (assess e S t1).2 S t2).1.vulnerabilities.map (fun v => v.vuln_id) ∧
    (assess e S t1).1.security_issues.map (fun i => i.issue_id) =
      (assess (assess e S t1).2 S t2).1.security_issues.map (fun i => i.issue_id) ∧
    (assess e S t1).1.summary.total_vulnerabilities =
      (assess (assess e S t1).2 S t2).1.summary.total_vulnerabilities ∧
    (assess e S t1).1.summary.total_security_issues =
      (assess (assess e S t1).2 S t2).1.summary.total_security_issues ∧
    (assess e S t1).1.summary.severity_distribution =
      (assess (assess e S t1).2 S t2).1.summary.severity_distribution :=
  ⟨(collect_vuln_ids_time_invariant t1 S).trans
      (collect_vuln_ids_time_invariant t2 S).symm,
   (collect_issue_ids_time_invariant t1 S).trans
      (collect_issue_ids_time_invariant t2 S).symm,
   (collect_vuln_length_time_invariant t1 S).trans
      (collect_vuln_length_time_invariant t2 S).symm,
   (collect_issue_length_time_invariant t1 S).trans
      (collect_issue_length_time_invariant t2 S).symm,
   (severity_distribution_time_invariant t1 S).trans
      (severity_distribution_time_invariant t2 S).symm⟩

/-- C2: the summary's severity histogram of every report produced by `assess`
lists exactly the five recognized levels (absent ones as zero), and its values
sum to the number of vulnerabilities in the report. -/
theorem assess_severity_histogram (e : VulnerabilityScanner)
    (S : List (String × List ScanResult)) (now : Nat) :
    (assess e S now).1.summary.severity_distribution.map Prod.fst = severity_levels ∧
    ((assess e S now).1.summary.severity_distribution.map Prod.snd).sum =
      (assess e S now).1.vulnerabilities.length := by
  constructor
  · rfl
  · have h := sum_countP_eq_length (fun v => v.severity) severity_levels (by decide)
      (collect_vulnerabilities now S) (collect_vulnerabilities_severity now S)
    simpa [assess, severity_distribution, List.map_map, Function.comp] using h

end NSAF
